import Mathlib

/-!
Shallow embedding of `src/lib/contract.ts` and `src/lib/constants.ts` of the
counter-app-ethers repository.

The TypeScript core is a class `CounterContractService` holding three nullable
fields (`contract`, `provider`, `signer`).  Every external effect (the injected
wallet, the ethers.js provider/signer/contract calls) is modelled by an
environment `Env` that supplies the outcome of each external call, and every
method returns, besides its result, the list of external calls it actually
issued (`trace`), so that "performs zero network calls" is a statement about
the trace.  Thrown JavaScript values are modelled by `JsThrown`: either an
`Error` object with a `message` and an optional numeric `code` property, or a
thrown non-`Error` value.
-/

namespace CounterApp

/-- A thrown JavaScript value: an `Error` object carrying its `message` and an
optional numeric `code` property, or a thrown value that is not an `Error`
instance (so `error instanceof Error` is false and `.code` is absent). -/
inductive JsThrown where
  | errorObj (message : String) (code : Option Int)
  | nonError
deriving DecidableEq, Repr

/-- The `code` property read off a caught value (`switchError.code`):
present only on `Error`-like objects. -/
def thrownCode : JsThrown → Option Int
  | .errorObj _ code => code
  | .nonError => none

/-- Network / chain information returned by `provider.getNetwork()`. -/
structure NetworkData where
  chainId : Nat
  name : String
deriving DecidableEq, Repr

/-- The contract handle built by `new ethers.Contract(address, ABI, signer)`:
a proxy bound to an address. -/
structure ContractHandle where
  address : String
deriving DecidableEq, Repr

/-- The three nullable fields of `CounterContractService`, in source order:
`contract`, `provider`, `signer`.  The provider and signer handles carry no
data relevant to the model, only presence. -/
structure ServiceState where
  contract : Option ContractHandle
  provider : Option Unit
  signer : Option Unit
deriving DecidableEq, Repr

/-- `new CounterContractService()`: all three fields initialised to `null`. -/
def initialState : ServiceState := ⟨none, none, none⟩

/-- One external interaction: a wallet-provider request or an ethers call that
hits the provider, the signer, or the chain. -/
inductive NetworkCall where
  | getSigner
  | getNetwork
  | getCode (address : String)
  | callGetCounter
  | callOwner
  | getAddress
  | submitIncrement
  | submitDecrement
  | submitReset
  | txWait
  | switchChain (chainId : String)
  | addChain (chainId chainName : String) (rpcUrls blockExplorerUrls : List String)
      (currencyName currencySymbol : String) (currencyDecimals : Nat)
deriving DecidableEq, Repr

/-- The external world: ambient browser environment, the ethers library's
address validator, and the outcome of each external call a method can make. -/
structure Env where
  windowDefined : Bool
  ethereumPresent : Bool
  isAddress : String → Bool
  signerResult : Except JsThrown Unit
  networkResult : Except JsThrown NetworkData
  codeResult : String → Except JsThrown String
  getCounterResult : Except JsThrown Nat
  ownerResult : Except JsThrown String
  signerAddressResult : Except JsThrown String
  incrementSubmitResult : Except JsThrown Unit
  decrementSubmitResult : Except JsThrown Unit
  resetSubmitResult : Except JsThrown Unit
  waitResult : Except JsThrown Unit
  switchChainResult : Except JsThrown Unit
  addChainResult : Except JsThrown Unit

/-- Outcome of `connect()`: the value or thrown error, the service state after
the call (field assignments happen as the body executes, so a failed call can
leave fields assigned), and the external calls issued. -/
structure ConnectResult where
  result : Except JsThrown Unit
  state : ServiceState
  trace : List NetworkCall

/-- Outcome of a method that does not reassign the service fields. -/
structure CallResult (α : Type) where
  result : Except JsThrown α
  trace : List NetworkCall
deriving Repr

/- Messages of the `Error` objects thrown at each throw site of the source. -/

/-- `'이 함수는 브라우저에서만 실행할 수 있습니다.'` (EnvironmentError: no window). -/
def envNoWindowMsg : String := "이 함수는 브라우저에서만 실행할 수 있습니다."

/-- `'MetaMask가 설치되지 않았습니다.'` (EnvironmentError: no injected wallet). -/
def envNoMetamaskMsg : String := "MetaMask가 설치되지 않았습니다."

/-- `` `유효하지 않은 컨트랙트 주소: ${contractAddress}` `` (InvalidAddressError). -/
def invalidAddressMsg (addr : String) : String :=
  "유효하지 않은 컨트랙트 주소: " ++ addr

/-- `` `컨트랙트가 해당 주소에 배포되지 않았습니다: ${contractAddress}` `` (ContractNotDeployedError). -/
def notDeployedMsg (addr : String) : String :=
  "컨트랙트가 해당 주소에 배포되지 않았습니다: " ++ addr

/-- `'컨트랙트에 연결되지 않았습니다.'` (NotConnectedError of the contract-gated methods). -/
def notConnectedMsg : String := "컨트랙트에 연결되지 않았습니다."

/-- The BAD_DATA rewrap message (StaleDeploymentError). -/
def staleDeploymentMsg : String :=
  "컨트랙트가 해당 주소에 배포되지 않았거나 잘못된 네트워크에 연결되었습니다."

/-- `` `카운터 값을 가져오는데 실패했습니다: ${...}` `` (ReadFailedError carrying the cause). -/
def readFailedMsg (cause : String) : String :=
  "카운터 값을 가져오는데 실패했습니다: " ++ cause

/-- `'알 수 없는 오류'`: the cause used when the thrown value is not an `Error`. -/
def unknownErrorMsg : String := "알 수 없는 오류"

/-- `'지갑에 연결되지 않았습니다.'` (NotConnectedError of `getWalletAddress`). -/
def walletNotConnectedMsg : String := "지갑에 연결되지 않았습니다."

/-- `'프로바이더에 연결되지 않았습니다.'` (NotConnectedError of the provider-gated methods). -/
def providerNotConnectedMsg : String := "프로바이더에 연결되지 않았습니다."

/-- `` `${CURRENT_NETWORK.name}을 추가할 수 없습니다.` `` (NetworkSwitchError, add-chain branch). -/
def addChainFailedMsg (networkName : String) : String :=
  networkName ++ "을 추가할 수 없습니다."

/-- `'네트워크 전환에 실패했습니다.'` (NetworkSwitchError, generic switch branch). -/
def switchFailedMsg : String := "네트워크 전환에 실패했습니다."

/-- Does `s` start with `pat`? (helper for `containsSubstr`). -/
def listStartsWith : List Char → List Char → Bool
  | _, [] => true
  | [], _ :: _ => false
  | a :: as, b :: bs => a == b && listStartsWith as bs

/-- Does `pat` occur as a contiguous sublist of `s`? -/
def listContainsSub : List Char → List Char → Bool
  | [], pat => listStartsWith [] pat
  | a :: rest, pat => listStartsWith (a :: rest) pat || listContainsSub rest pat

/-- JavaScript `s.includes(pat)`: substring containment. -/
def containsSubstr (s pat : String) : Bool := listContainsSub s.data pat.data

/- `src/lib/constants.ts` -/

/-- `export const contractAddress = '0x4195c66979168212232B2d88cb15fd48c5072c83'`. -/
def contractAddress : String := "0x4195c66979168212232B2d88cb15fd48c5072c83"

/-- One entry of `SUPPORTED_NETWORKS`. -/
structure NetworkDescriptor where
  chainId : Nat
  name : String
  rpcUrl : String
  blockExplorer : String
deriving DecidableEq, Repr

/-- `SUPPORTED_NETWORKS.sepolia`. -/
def SUPPORTED_NETWORKS_sepolia : NetworkDescriptor :=
  ⟨11155111, "Sepolia Test Network", "https://sepolia.infura.io/v3/",
    "https://sepolia.etherscan.io/"⟩

/-- `export const CURRENT_NETWORK = SUPPORTED_NETWORKS.sepolia`. -/
def CURRENT_NETWORK : NetworkDescriptor := SUPPORTED_NETWORKS_sepolia

/-- JavaScript `n.toString(16)` for a non-negative integer: lowercase
hexadecimal digits, `"0"` for zero. -/
def natToHex (n : Nat) : String := String.mk (Nat.toDigits 16 n)

/- `src/lib/contract.ts`: the methods of `CounterContractService`. -/

/-- `connect()`, parameterised by the configured `contractAddress` it closes
over.  Field assignments are interleaved with the external calls exactly as in
the source: `this.provider` and `this.signer` are assigned before the network
query, the address validation and the bytecode check. -/
def connectWith (contractAddress : String) (st : ServiceState) (env : Env) :
    ConnectResult :=
  if env.windowDefined = false then
    ⟨.error (.errorObj envNoWindowMsg none), st, []⟩
  else if env.ethereumPresent = false then
    ⟨.error (.errorObj envNoMetamaskMsg none), st, []⟩
  else
    -- this.provider = new ethers.BrowserProvider(window.ethereum)
    let st1 : ServiceState := ⟨st.contract, some (), st.signer⟩
    -- this.signer = await this.provider.getSigner()
    match env.signerResult with
    | .error e => ⟨.error e, st1, [.getSigner]⟩
    | .ok s =>
      let st2 : ServiceState := ⟨st1.contract, st1.provider, some s⟩
      -- const network = await this.provider.getNetwork()
      match env.networkResult with
      | .error e => ⟨.error e, st2, [.getSigner, .getNetwork]⟩
      | .ok _network =>
        -- if (!ethers.isAddress(contractAddress)) throw ...
        if env.isAddress contractAddress = false then
          ⟨.error (.errorObj (invalidAddressMsg contractAddress) none), st2,
            [.getSigner, .getNetwork]⟩
        else
          -- const code = await this.provider.getCode(contractAddress)
          match env.codeResult contractAddress with
          | .error e =>
            ⟨.error e, st2, [.getSigner, .getNetwork, .getCode contractAddress]⟩
          | .ok code =>
            if code = "0x" then
              ⟨.error (.errorObj (notDeployedMsg contractAddress) none), st2,
                [.getSigner, .getNetwork, .getCode contractAddress]⟩
            else
              -- this.contract = new ethers.Contract(contractAddress, CounterABI, this.signer)
              ⟨.ok (), ⟨some ⟨contractAddress⟩, st2.provider, st2.signer⟩,
                [.getSigner, .getNetwork, .getCode contractAddress]⟩

/-- `connect()` with the configured constant address. -/
def connect (st : ServiceState) (env : Env) : ConnectResult :=
  connectWith contractAddress st env

/-- `getCounter()`: guarded on `this.contract`; wraps a thrown error whose
message contains `'BAD_DATA'` into the stale-deployment error, every other
thrown value into the read-failed error carrying the message (or the
unknown-error text for a non-`Error` value). -/
def getCounter (st : ServiceState) (env : Env) : CallResult Nat :=
  match st.contract with
  | none => ⟨.error (.errorObj notConnectedMsg none), []⟩
  | some _ =>
    match env.getCounterResult with
    | .ok v => ⟨.ok v, [.callGetCounter]⟩
    | .error e =>
      match e with
      | .errorObj msg _ =>
        if containsSubstr msg "BAD_DATA" then
          ⟨.error (.errorObj staleDeploymentMsg none), [.callGetCounter]⟩
        else
          ⟨.error (.errorObj (readFailedMsg msg) none), [.callGetCounter]⟩
      | .nonError =>
        ⟨.error (.errorObj (readFailedMsg unknownErrorMsg) none), [.callGetCounter]⟩

/-- `incrementCounter()`: guard, submit, then `tx.wait()`; no try/catch. -/
def incrementCounter (st : ServiceState) (env : Env) : CallResult Unit :=
  match st.contract with
  | none => ⟨.error (.errorObj notConnectedMsg none), []⟩
  | some _ =>
    match env.incrementSubmitResult with
    | .error e => ⟨.error e, [.submitIncrement]⟩
    | .ok _tx =>
      match env.waitResult with
      | .error e => ⟨.error e, [.submitIncrement, .txWait]⟩
      | .ok _ => ⟨.ok (), [.submitIncrement, .txWait]⟩

/-- `decrementCounter()`: guard, submit, then `tx.wait()`; no try/catch. -/
def decrementCounter (st : ServiceState) (env : Env) : CallResult Unit :=
  match st.contract with
  | none => ⟨.error (.errorObj notConnectedMsg none), []⟩
  | some _ =>
    match env.decrementSubmitResult with
    | .error e => ⟨.error e, [.submitDecrement]⟩
    | .ok _tx =>
      match env.waitResult with
      | .error e => ⟨.error e, [.submitDecrement, .txWait]⟩
      | .ok _ => ⟨.ok (), [.submitDecrement, .txWait]⟩

/-- `resetCounter()`: guard, submit, then `tx.wait()`; no try/catch. -/
def resetCounter (st : ServiceState) (env : Env) : CallResult Unit :=
  match st.contract with
  | none => ⟨.error (.errorObj notConnectedMsg none), []⟩
  | some _ =>
    match env.resetSubmitResult with
    | .error e => ⟨.error e, [.submitReset]⟩
    | .ok _tx =>
      match env.waitResult with
      | .error e => ⟨.error e, [.submitReset, .txWait]⟩
      | .ok _ => ⟨.ok (), [.submitReset, .txWait]⟩

/-- `getOwner()`: guarded on `this.contract`, then `this.contract.owner()`. -/
def getOwner (st : ServiceState) (env : Env) : CallResult String :=
  match st.contract with
  | none => ⟨.error (.errorObj notConnectedMsg none), []⟩
  | some _ =>
    match env.ownerResult with
    | .error e => ⟨.error e, [.callOwner]⟩
    | .ok a => ⟨.ok a, [.callOwner]⟩

/-- `getWalletAddress()`: guarded on `this.signer`, then `this.signer.getAddress()`. -/
def getWalletAddress (st : ServiceState) (env : Env) : CallResult String :=
  match st.signer with
  | none => ⟨.error (.errorObj walletNotConnectedMsg none), []⟩
  | some _ =>
    match env.signerAddressResult with
    | .error e => ⟨.error e, [.getAddress]⟩
    | .ok a => ⟨.ok a, [.getAddress]⟩

/-- `isConnected()`: `this.contract !== null`. -/
def isConnected (st : ServiceState) : Bool := st.contract.isSome

/-- `getNetworkInfo()`: guarded on `this.provider`, then `provider.getNetwork()`. -/
def getNetworkInfo (st : ServiceState) (env : Env) : CallResult NetworkData :=
  match st.provider with
  | none => ⟨.error (.errorObj providerNotConnectedMsg none), []⟩
  | some _ =>
    match env.networkResult with
    | .error e => ⟨.error e, [.getNetwork]⟩
    | .ok n => ⟨.ok ⟨n.chainId, n.name⟩, [.getNetwork]⟩

/-- `switchToCorrectNetwork()`: requests `wallet_switchEthereumChain` with the
hex-encoded `CURRENT_NETWORK.chainId`; on a caught error with `.code === 4902`
it requests `wallet_addEthereumChain` with the configured network data and a
fixed ETH native-currency descriptor, converting an add failure into the
add-chain error; any other caught error becomes the generic switch error. -/
def switchToCorrectNetwork (env : Env) : CallResult Unit :=
  if env.ethereumPresent = false then
    ⟨.error (.errorObj envNoMetamaskMsg none), []⟩
  else
    -- const sepoliaChainId = `0x${CURRENT_NETWORK.chainId.toString(16)}`
    let sepoliaChainId : String := "0x" ++ natToHex CURRENT_NETWORK.chainId
    match env.switchChainResult with
    | .ok _ => ⟨.ok (), [.switchChain sepoliaChainId]⟩
    | .error switchError =>
      if thrownCode switchError = some 4902 then
        match env.addChainResult with
        | .ok _ =>
          ⟨.ok (),
            [.switchChain sepoliaChainId,
              .addChain sepoliaChainId CURRENT_NETWORK.name [CURRENT_NETWORK.rpcUrl]
                [CURRENT_NETWORK.blockExplorer] "ETH" "ETH" 18]⟩
        | .error _addError =>
          ⟨.error (.errorObj (addChainFailedMsg CURRENT_NETWORK.name) none),
            [.switchChain sepoliaChainId,
              .addChain sepoliaChainId CURRENT_NETWORK.name [CURRENT_NETWORK.rpcUrl]
                [CURRENT_NETWORK.blockExplorer] "ETH" "ETH" 18]⟩
      else
        ⟨.error (.errorObj switchFailedMsg none), [.switchChain sepoliaChainId]⟩

/-- The aggregate returned by `getContractDebugInfo()`. -/
structure ContractDebugInfo where
  contractAddress : String
  networkInfo : NetworkData
  contractCode : String
  isContractDeployed : Bool
deriving DecidableEq, Repr

/-- `getContractDebugInfo()`: guarded on `this.provider` only; queries the
network and the bytecode at the configured address and reports them. -/
def getContractDebugInfo (st : ServiceState) (env : Env) :
    CallResult ContractDebugInfo :=
  match st.provider with
  | none => ⟨.error (.errorObj providerNotConnectedMsg none), []⟩
  | some _ =>
    match env.networkResult with
    | .error e => ⟨.error e, [.getNetwork]⟩
    | .ok n =>
      match env.codeResult contractAddress with
      | .error e => ⟨.error e, [.getNetwork, .getCode contractAddress]⟩
      | .ok code =>
        ⟨.ok ⟨contractAddress, ⟨n.chainId, n.name⟩, code, code != "0x"⟩,
          [.getNetwork, .getCode contractAddress]⟩

/- Concrete environments and states used to evaluate the model. -/

/-- A state with a full session, as left by a successful `connect()`. -/
def connectedState : ServiceState := ⟨some ⟨contractAddress⟩, some (), some ()⟩

/-- A benign environment: browser and wallet present, every external call
succeeds, the configured address validates, bytecode is non-empty. -/
def okEnv : Env :=
  ⟨true, true, fun _ => true, .ok (), .ok ⟨11155111, "sepolia"⟩,
    fun _ => .ok "0x608060405234", .ok 7, .ok "0xOwner", .ok "0xUser",
    .ok (), .ok (), .ok (), .ok (), .ok (), .ok ()⟩

/-- An environment whose address validator rejects every string. -/
def invalidAddrEnv : Env :=
  ⟨true, true, fun _ => false, .ok (), .ok ⟨1, "mainnet"⟩,
    fun _ => .ok "0x608060405234", .ok 0, .ok "0xOwner", .ok "0xUser",
    .ok (), .ok (), .ok (), .ok (), .ok (), .ok ()⟩

/-- An environment on whose chain the bytecode at every address is empty. -/
def emptyCodeEnv : Env :=
  ⟨true, true, fun _ => true, .ok (), .ok ⟨1, "mainnet"⟩,
    fun _ => .ok "0x", .ok 0, .ok "0xOwner", .ok "0xUser",
    .ok (), .ok (), .ok (), .ok (), .ok (), .ok ()⟩

/-- The error an ethers node raises when the call target decodes to nothing:
its message contains the substring `BAD_DATA`. -/
def badDataError : JsThrown :=
  .errorObj "could not decode result data (value=0x, info=..., code=BAD_DATA, version=6.7.0)" none

/-- An environment whose contract read raises `badDataError`. -/
def badDataEnv : Env :=
  ⟨true, true, fun _ => true, .ok (), .ok ⟨11155111, "sepolia"⟩,
    fun _ => .ok "0x608060405234", .error badDataError, .ok "0xOwner", .ok "0xUser",
    .ok (), .ok (), .ok (), .ok (), .ok (), .ok ()⟩

/-- The error a wallet raises when the user rejects the signature request. -/
def rejectedError : JsThrown :=
  .errorObj "user rejected action (action=sendTransaction, code=ACTION_REJECTED)" (some 4001)

/-- An environment whose increment submission is rejected by the user. -/
def rejectedTxEnv : Env :=
  ⟨true, true, fun _ => true, .ok (), .ok ⟨11155111, "sepolia"⟩,
    fun _ => .ok "0x608060405234", .ok 7, .ok "0xOwner", .ok "0xUser",
    .error rejectedError, .ok (), .ok (), .ok (), .ok (), .ok ()⟩

/-- An environment where `wallet_switchEthereumChain` fails with a non-4902
code (the user rejected the switch prompt). -/
def userRejectedSwitchEnv : Env :=
  ⟨true, true, fun _ => true, .ok (), .ok ⟨1, "mainnet"⟩,
    fun _ => .ok "0x608060405234", .ok 0, .ok "0xOwner", .ok "0xUser",
    .ok (), .ok (), .ok (), .ok (),
    .error (.errorObj "User rejected the request." (some 4001)), .ok ()⟩

/-- An environment where `wallet_switchEthereumChain` fails with code 4902
(chain not registered) and the follow-up `wallet_addEthereumChain` also fails. -/
def chainMissingEnv : Env :=
  ⟨true, true, fun _ => true, .ok (), .ok ⟨1, "mainnet"⟩,
    fun _ => .ok "0x608060405234", .ok 0, .ok "0xOwner", .ok "0xUser",
    .ok (), .ok (), .ok (), .ok (),
    .error (.errorObj "Unrecognized chain ID" (some 4902)),
    .error (.errorObj "User rejected chain registration" (some 4001))⟩

/-- C2: whenever `isConnected()` is false, `getCounter`, `incrementCounter`,
`decrementCounter`, `resetCounter` and `getOwner` all fail immediately with
the not-connected error and issue zero external calls, for every environment. -/
theorem gateway_fast_fail_when_disconnected (st : ServiceState) (env : Env)
    (h : isConnected st = false) :
    getCounter st env = ⟨.error (.errorObj notConnectedMsg none), []⟩ ∧
    incrementCounter st env = ⟨.error (.errorObj notConnectedMsg none), []⟩ ∧
    decrementCounter st env = ⟨.error (.errorObj notConnectedMsg none), []⟩ ∧
    resetCounter st env = ⟨.error (.errorObj notConnectedMsg none), []⟩ ∧
    getOwner st env = ⟨.error (.errorObj notConnectedMsg none), []⟩ := by
  have hc : st.contract = none := by
    cases hcc : st.contract
    · rfl
    · rw [isConnected, hcc] at h
      simp at h
  refine ⟨?_, ?_, ?_, ?_, ?_⟩ <;>
    simp [getCounter, incrementCounter, decrementCounter, resetCounter, getOwner, hc]

/-- Witness for C2 on the fresh service instance. -/
theorem gateway_fast_fail_when_disconnected_witness :
    getCounter initialState okEnv = ⟨.error (.errorObj notConnectedMsg none), []⟩ ∧
    incrementCounter initialState okEnv = ⟨.error (.errorObj notConnectedMsg none), []⟩ ∧
    decrementCounter initialState okEnv = ⟨.error (.errorObj notConnectedMsg none), []⟩ ∧
    resetCounter initialState okEnv = ⟨.error (.errorObj notConnectedMsg none), []⟩ ∧
    getOwner initialState okEnv = ⟨.error (.errorObj notConnectedMsg none), []⟩ :=
  gateway_fast_fail_when_disconnected initialState okEnv rfl

/-- C5: when the underlying read of `getCounter` throws an `Error`, a message
containing `BAD_DATA` is rewrapped as the stale-deployment error and any other
message as the read-failed error carrying that message. -/
theorem getCounter_error_classification (st : ServiceState) (env : Env)
    (c : ContractHandle) (hc : st.contract = some c)
    (msg : String) (code : Option Int)
    (he : env.getCounterResult = .error (.errorObj msg code)) :
    (containsSubstr msg "BAD_DATA" = true →
      (getCounter st env).result = .error (.errorObj staleDeploymentMsg none)) ∧
    (containsSubstr msg "BAD_DATA" = false →
      (getCounter st env).result = .error (.errorObj (readFailedMsg msg) none)) := by
  constructor <;> intro hb <;> simp [getCounter, hc, he, hb]

/-- Witness for C5 on a concrete `BAD_DATA` read failure. -/
theorem getCounter_error_classification_witness :
    (containsSubstr "could not decode result data (value=0x, info=..., code=BAD_DATA, version=6.7.0)" "BAD_DATA" = true →
      (getCounter connectedState badDataEnv).result = .error (.errorObj staleDeploymentMsg none)) ∧
    (containsSubstr "could not decode result data (value=0x, info=..., code=BAD_DATA, version=6.7.0)" "BAD_DATA" = false →
      (getCounter connectedState badDataEnv).result =
        .error (.errorObj (readFailedMsg "could not decode result data (value=0x, info=..., code=BAD_DATA, version=6.7.0)") none)) :=
  getCounter_error_classification connectedState badDataEnv ⟨contractAddress⟩ rfl _ none rfl

/-- C8 counterexample: a user-rejected submission inside `incrementCounter`
escapes as exactly the raw underlying thrown error — it is not rewrapped into
any transaction-failed error by the service. -/
theorem mutator_raw_error_counterexample :
    rejectedTxEnv.incrementSubmitResult = .error rejectedError ∧
    (incrementCounter connectedState rejectedTxEnv).result = .error rejectedError :=
  ⟨rfl, rfl⟩

/-- C8 amended: every failure of submission or confirmation inside
`incrementCounter`, `decrementCounter` and `resetCounter` propagates to the
caller as the raw underlying error, unwrapped. -/
theorem mutators_propagate_raw_errors (st : ServiceState) (env : Env)
    (c : ContractHandle) (hc : st.contract = some c) :
    (∀ e, env.incrementSubmitResult = .error e →
      (incrementCounter st env).result = .error e) ∧
    (∀ e, env.incrementSubmitResult = .ok () → env.waitResult = .error e →
      (incrementCounter st env).result = .error e) ∧
    (∀ e, env.decrementSubmitResult = .error e →
      (decrementCounter st env).result = .error e) ∧
    (∀ e, env.decrementSubmitResult = .ok () → env.waitResult = .error e →
      (decrementCounter st env).result = .error e) ∧
    (∀ e, env.resetSubmitResult = .error e →
      (resetCounter st env).result = .error e) ∧
    (∀ e, env.resetSubmitResult = .ok () → env.waitResult = .error e →
      (resetCounter st env).result = .error e) := by
  refine ⟨?_, ?_, ?_, ?_, ?_, ?_⟩ <;> intros <;>
    simp_all [incrementCounter, decrementCounter, resetCounter, hc]

/-- Witness for the amended C8 on a concrete rejected submission. -/
theorem mutators_propagate_raw_errors_witness :
    (∀ e, rejectedTxEnv.incrementSubmitResult = .error e →
      (incrementCounter connectedState rejectedTxEnv).result = .error e) ∧
    (∀ e, rejectedTxEnv.incrementSubmitResult = .ok () → rejectedTxEnv.waitResult = .error e →
      (incrementCounter connectedState rejectedTxEnv).result = .error e) ∧
    (∀ e, rejectedTxEnv.decrementSubmitResult = .error e →
      (decrementCounter connectedState rejectedTxEnv).result = .error e) ∧
    (∀ e, rejectedTxEnv.decrementSubmitResult = .ok () → rejectedTxEnv.waitResult = .error e →
      (decrementCounter connectedState rejectedTxEnv).result = .error e) ∧
    (∀ e, rejectedTxEnv.resetSubmitResult = .error e →
      (resetCounter connectedState rejectedTxEnv).result = .error e) ∧
    (∀ e, rejectedTxEnv.resetSubmitResult = .ok () → rejectedTxEnv.waitResult = .error e →
      (resetCounter connectedState rejectedTxEnv).result = .error e) :=
  mutators_propagate_raw_errors connectedState rejectedTxEnv ⟨contractAddress⟩ rfl

/-- C9: on a connected service each mutating operation resolves successfully
exactly when both the submission and the confirmation wait succeed, and a
successful run issues the submission followed by the `tx.wait()` — never a
submission alone. -/
theorem mutators_two_phase_confirmation (st : ServiceState) (env : Env)
    (c : ContractHandle) (hc : st.contract = some c) :
    ((incrementCounter st env).result = .ok () ↔
      env.incrementSubmitResult = .ok () ∧ env.waitResult = .ok ()) ∧
    ((incrementCounter st env).result = .ok () →
      (incrementCounter st env).trace = [.submitIncrement, .txWait]) ∧
    ((decrementCounter st env).result = .ok () ↔
      env.decrementSubmitResult = .ok () ∧ env.waitResult = .ok ()) ∧
    ((decrementCounter st env).result = .ok () →
      (decrementCounter st env).trace = [.submitDecrement, .txWait]) ∧
    ((resetCounter st env).result = .ok () ↔
      env.resetSubmitResult = .ok () ∧ env.waitResult = .ok ()) ∧
    ((resetCounter st env).result = .ok () →
      (resetCounter st env).trace = [.submitReset, .txWait]) := by
  refine ⟨?_, ?_, ?_, ?_, ?_, ?_⟩ <;>
  · rcases hs : env.incrementSubmitResult with e | u <;>
    rcases hd : env.decrementSubmitResult with e2 | u2 <;>
    rcases hr : env.resetSubmitResult with e3 | u3 <;>
    rcases hw : env.waitResult with e4 | u4 <;>
    simp [incrementCounter, decrementCounter, resetCounter, hc, hs, hd, hr, hw]

/-- Witness for C9 on a benign environment where all phases succeed. -/
theorem mutators_two_phase_confirmation_witness :
    ((incrementCounter connectedState okEnv).result = .ok () ↔
      okEnv.incrementSubmitResult = .ok () ∧ okEnv.waitResult = .ok ()) ∧
    ((incrementCounter connectedState okEnv).result = .ok () →
      (incrementCounter connectedState okEnv).trace = [.submitIncrement, .txWait]) ∧
    ((decrementCounter connectedState okEnv).result = .ok () ↔
      okEnv.decrementSubmitResult = .ok () ∧ okEnv.waitResult = .ok ()) ∧
    ((decrementCounter connectedState okEnv).result = .ok () →
      (decrementCounter connectedState okEnv).trace = [.submitDecrement, .txWait]) ∧
    ((resetCounter connectedState okEnv).result = .ok () ↔
      okEnv.resetSubmitResult = .ok () ∧ okEnv.waitResult = .ok ()) ∧
    ((resetCounter connectedState okEnv).result = .ok () →
      (resetCounter connectedState okEnv).trace = [.submitReset, .txWait]) :=
  mutators_two_phase_confirmation connectedState okEnv ⟨contractAddress⟩ rfl

/-- C1 counterexample: on a fresh instance, a `connect()` that fails at the
address validation leaves the provider and signer fields assigned while the
contract field stays absent — a partial session state, contradicting the claim
that no failed attempt retains any of the three fields. -/
theorem connect_atomicity_counterexample :
    (connect initialState invalidAddrEnv).result =
      .error (.errorObj (invalidAddressMsg contractAddress) none) ∧
    (connect initialState invalidAddrEnv).state.provider = some () ∧
    (connect initialState invalidAddrEnv).state.signer = some () ∧
    (connect initialState invalidAddrEnv).state.contract = none :=
  ⟨rfl, rfl, rfl, rfl⟩

/-- C1 amended: a successful `connect()` leaves all three fields present, and
a `connect()` that fails starting from a disconnected state leaves the
contract handle absent (`isConnected()` stays false) — but the provider and
signer fields may be retained across the failure. -/
theorem connect_contract_handle_atomicity (st : ServiceState) (env : Env) :
    ((connect st env).result = .ok () →
      (connect st env).state.contract.isSome = true ∧
      (connect st env).state.provider.isSome = true ∧
      (connect st env).state.signer.isSome = true) ∧
    (st.contract = none → ∀ e, (connect st env).result = .error e →
      (connect st env).state.contract = none ∧
      isConnected (connect st env).state = false) := by
  unfold connect connectWith
  refine ⟨?_, ?_⟩ <;>
  · repeat' split
    all_goals simp_all [isConnected]

/-- Witness for the amended C1: a successful connect on the benign environment
and a failed connect on the empty-bytecode environment. -/
theorem connect_contract_handle_atomicity_witness :
    (((connect initialState okEnv).result = .ok () →
      (connect initialState okEnv).state.contract.isSome = true ∧
      (connect initialState okEnv).state.provider.isSome = true ∧
      (connect initialState okEnv).state.signer.isSome = true) ∧
    (initialState.contract = none → ∀ e, (connect initialState okEnv).result = .error e →
      (connect initialState okEnv).state.contract = none ∧
      isConnected (connect initialState okEnv).state = false)) ∧
    (((connect initialState emptyCodeEnv).result = .ok () →
      (connect initialState emptyCodeEnv).state.contract.isSome = true ∧
      (connect initialState emptyCodeEnv).state.provider.isSome = true ∧
      (connect initialState emptyCodeEnv).state.signer.isSome = true) ∧
    (initialState.contract = none → ∀ e, (connect initialState emptyCodeEnv).result = .error e →
      (connect initialState emptyCodeEnv).state.contract = none ∧
      isConnected (connect initialState emptyCodeEnv).state = false)) :=
  ⟨connect_contract_handle_atomicity initialState okEnv,
    connect_contract_handle_atomicity initialState emptyCodeEnv⟩

/-- C3 counterexample: with a malformed configured address, `connect()` does
fail with the invalid-address error, but only after the signer acquisition and
the network query have been issued — the trace of external calls preceding the
failure is not empty. -/
theorem connect_invalid_address_counterexample :
    (connectWith "not-an-address" initialState invalidAddrEnv).result =
      .error (.errorObj (invalidAddressMsg "not-an-address") none) ∧
    (connectWith "not-an-address" initialState invalidAddrEnv).trace =
      [.getSigner, .getNetwork] ∧
    (connectWith "not-an-address" initialState invalidAddrEnv).trace ≠ [] :=
  ⟨rfl, rfl, by decide⟩

/-- C3 amended: for every malformed configured address, once the environment
checks pass `connect()` fails with the invalid-address error before the
bytecode query — but the signer acquisition and the informational network
query do precede the address validation. -/
theorem connect_invalid_address_before_bytecode (addr : String)
    (st : ServiceState) (env : Env)
    (hw : env.windowDefined = true) (he : env.ethereumPresent = true)
    (hs : env.signerResult = .ok ()) (n : NetworkData)
    (hn : env.networkResult = .ok n)
    (ha : env.isAddress addr = false) :
    (connectWith addr st env).result =
      .error (.errorObj (invalidAddressMsg addr) none) ∧
    (connectWith addr st env).trace = [.getSigner, .getNetwork] ∧
    NetworkCall.getCode addr ∉ (connectWith addr st env).trace := by
  refine ⟨?_, ?_, ?_⟩ <;> simp [connectWith, hw, he, hs, hn, ha]

/-- Witness for the amended C3 on a concrete malformed address. -/
theorem connect_invalid_address_before_bytecode_witness :
    (connectWith "zz" initialState invalidAddrEnv).result =
      .error (.errorObj (invalidAddressMsg "zz") none) ∧
    (connectWith "zz" initialState invalidAddrEnv).trace =
      [.getSigner, .getNetwork] ∧
    NetworkCall.getCode "zz" ∉ (connectWith "zz" initialState invalidAddrEnv).trace :=
  connect_invalid_address_before_bytecode "zz" initialState invalidAddrEnv
    rfl rfl rfl ⟨1, "mainnet"⟩ rfl rfl

/-- C4: once the environment checks, signer acquisition, network query and
address validation pass, empty bytecode (`"0x"`) at the configured address
makes `connect()` fail with the not-deployed error, and `isConnected()`
remains false. -/
theorem connect_empty_bytecode_not_deployed (st : ServiceState) (env : Env)
    (hc0 : st.contract = none)
    (hw : env.windowDefined = true) (he : env.ethereumPresent = true)
    (hs : env.signerResult = .ok ()) (n : NetworkData)
    (hn : env.networkResult = .ok n)
    (ha : env.isAddress contractAddress = true)
    (hcode : env.codeResult contractAddress = .ok "0x") :
    (connect st env).result =
      .error (.errorObj (notDeployedMsg contractAddress) none) ∧
    isConnected (connect st env).state = false := by
  refine ⟨?_, ?_⟩ <;>
    simp [connect, connectWith, hw, he, hs, hn, ha, hcode, isConnected, hc0]

/-- Witness for C4 on the empty-bytecode environment. -/
theorem connect_empty_bytecode_not_deployed_witness :
    (connect initialState emptyCodeEnv).result =
      .error (.errorObj (notDeployedMsg contractAddress) none) ∧
    isConnected (connect initialState emptyCodeEnv).state = false :=
  connect_empty_bytecode_not_deployed initialState emptyCodeEnv
    rfl rfl rfl rfl ⟨1, "mainnet"⟩ rfl rfl rfl

/-- C6: with a wallet present, `switchToCorrectNetwork()` first issues
`wallet_switchEthereumChain` with chain id `"0xaa36a7"` (11155111 in hex), and
it issues the follow-up `wallet_addEthereumChain` — carrying that chain id,
the configured chain name, RPC and explorer URLs and the ETH native-currency
descriptor — exactly when the switch request failed with code 4902. -/
theorem switchNetwork_request_sequence (env : Env)
    (h : env.ethereumPresent = true) :
    (switchToCorrectNetwork env).trace.head? =
      some (NetworkCall.switchChain "0xaa36a7") ∧
    (NetworkCall.addChain "0xaa36a7" "Sepolia Test Network"
        ["https://sepolia.infura.io/v3/"] ["https://sepolia.etherscan.io/"]
        "ETH" "ETH" 18 ∈ (switchToCorrectNetwork env).trace ↔
      ∃ msg, env.switchChainResult = .error (.errorObj msg (some 4902))) := by
  have hhex : "0x" ++ natToHex 11155111 = "0xaa36a7" := rfl
  rcases hs : env.switchChainResult with e | u
  · rcases e with ⟨msg, code⟩ | _
    · by_cases hcode : code = some 4902
      · subst hcode
        rcases ha : env.addChainResult with e2 | u2 <;>
          simp [switchToCorrectNetwork, h, hs, ha, thrownCode,
            CURRENT_NETWORK, SUPPORTED_NETWORKS_sepolia, hhex]
      · simp [switchToCorrectNetwork, h, hs, thrownCode, hcode,
          CURRENT_NETWORK, SUPPORTED_NETWORKS_sepolia, hhex]
    · simp [switchToCorrectNetwork, h, hs, thrownCode,
        CURRENT_NETWORK, SUPPORTED_NETWORKS_sepolia, hhex]
  · simp [switchToCorrectNetwork, h, hs,
      CURRENT_NETWORK, SUPPORTED_NETWORKS_sepolia, hhex]

/-- Witness for C6 on the chain-not-registered environment. -/
theorem switchNetwork_request_sequence_witness :
    (switchToCorrectNetwork chainMissingEnv).trace.head? =
      some (NetworkCall.switchChain "0xaa36a7") ∧
    (NetworkCall.addChain "0xaa36a7" "Sepolia Test Network"
        ["https://sepolia.infura.io/v3/"] ["https://sepolia.etherscan.io/"]
        "ETH" "ETH" 18 ∈ (switchToCorrectNetwork chainMissingEnv).trace ↔
      ∃ msg, chainMissingEnv.switchChainResult =
        .error (.errorObj msg (some 4902))) :=
  switchNetwork_request_sequence chainMissingEnv rfl

/-- C7 counterexample: a non-4902 failure of `wallet_switchEthereumChain`
surfaces as the generic switch-failed error, whose message does not name the
required network. -/
theorem switchNetwork_message_counterexample :
    userRejectedSwitchEnv.switchChainResult =
      .error (.errorObj "User rejected the request." (some 4001)) ∧
    (switchToCorrectNetwork userRejectedSwitchEnv).result =
      .error (.errorObj switchFailedMsg none) ∧
    containsSubstr switchFailedMsg CURRENT_NETWORK.name = false :=
  ⟨rfl, rfl, by decide⟩

/-- C7 amended: every reconcile failure other than the 4902 fallback raises an
error — a non-4902 switch failure raises the generic switch-failed error,
whose message does not name the required network, while a failure of the
registration request raises the add-chain error, whose message does name it. -/
theorem switchNetwork_failure_messages (env : Env)
    (h : env.ethereumPresent = true) :
    (∀ e, env.switchChainResult = .error e → thrownCode e ≠ some 4902 →
      (switchToCorrectNetwork env).result =
        .error (.errorObj switchFailedMsg none) ∧
      containsSubstr switchFailedMsg CURRENT_NETWORK.name = false) ∧
    (∀ e e2, env.switchChainResult = .error e → thrownCode e = some 4902 →
      env.addChainResult = .error e2 →
      (switchToCorrectNetwork env).result =
        .error (.errorObj (addChainFailedMsg CURRENT_NETWORK.name) none) ∧
      containsSubstr (addChainFailedMsg CURRENT_NETWORK.name)
        CURRENT_NETWORK.name = true) := by
  constructor
  · intro e hs hcode
    refine ⟨?_, by decide⟩
    simp [switchToCorrectNetwork, h, hs, hcode]
  · intro e e2 hs hcode ha
    refine ⟨?_, by decide⟩
    simp [switchToCorrectNetwork, h, hs, hcode, ha]

/-- Witness for the amended C7 on the chain-not-registered environment. -/
theorem switchNetwork_failure_messages_witness :
    (∀ e, chainMissingEnv.switchChainResult = .error e →
      thrownCode e ≠ some 4902 →
      (switchToCorrectNetwork chainMissingEnv).result =
        .error (.errorObj switchFailedMsg none) ∧
      containsSubstr switchFailedMsg CURRENT_NETWORK.name = false) ∧
    (∀ e e2, chainMissingEnv.switchChainResult = .error e →
      thrownCode e = some 4902 →
      chainMissingEnv.addChainResult = .error e2 →
      (switchToCorrectNetwork chainMissingEnv).result =
        .error (.errorObj (addChainFailedMsg CURRENT_NETWORK.name) none) ∧
      containsSubstr (addChainFailedMsg CURRENT_NETWORK.name)
        CURRENT_NETWORK.name = true) :=
  switchNetwork_failure_messages chainMissingEnv rfl

/-- C10: after a `connect()` that fails at address validation or at the
bytecode check, the provider and signer fields remain assigned while the
contract handle is absent, so `getNetworkInfo`, `getWalletAddress` and
`getContractDebugInfo` still succeed (given their own external calls succeed)
instead of raising a not-connected error. -/
theorem diagnostics_after_failed_connect (st : ServiceState) (env : Env)
    (hw : env.windowDefined = true) (he : env.ethereumPresent = true)
    (hs : env.signerResult = .ok ()) (n : NetworkData)
    (hn : env.networkResult = .ok n)
    (hfail : env.isAddress contractAddress = false ∨
      (env.isAddress contractAddress = true ∧
        env.codeResult contractAddress = .ok "0x")) :
    (∃ e, (connect st env).result = .error e) ∧
    (connect st env).state.provider = some () ∧
    (connect st env).state.signer = some () ∧
    (st.contract = none → isConnected (connect st env).state = false) ∧
    (∀ env2 n2, env2.networkResult = .ok n2 →
      (getNetworkInfo (connect st env).state env2).result =
        .ok ⟨n2.chainId, n2.name⟩) ∧
    (∀ env2 a, env2.signerAddressResult = .ok a →
      (getWalletAddress (connect st env).state env2).result = .ok a) ∧
    (∀ env2 n2 code, env2.networkResult = .ok n2 →
      env2.codeResult contractAddress = .ok code →
      (getContractDebugInfo (connect st env).state env2).result =
        .ok ⟨contractAddress, ⟨n2.chainId, n2.name⟩, code, code != "0x"⟩) := by
  rcases hfail with ha | ⟨ha, hcode⟩
  · have hconn : connect st env =
        ⟨.error (.errorObj (invalidAddressMsg contractAddress) none),
          ⟨st.contract, some (), some ()⟩, [.getSigner, .getNetwork]⟩ := by
      simp [connect, connectWith, hw, he, hs, hn, ha]
    rw [hconn]
    refine ⟨⟨_, rfl⟩, rfl, rfl, ?_, ?_, ?_, ?_⟩
    · intro hc0
      simp [isConnected, hc0]
    · intro env2 n2 hn2
      simp [getNetworkInfo, hn2]
    · intro env2 a ha2
      simp [getWalletAddress, ha2]
    · intro env2 n2 code hn2 hcd2
      simp [getContractDebugInfo, hn2, hcd2]
  · have hconn : connect st env =
        ⟨.error (.errorObj (notDeployedMsg contractAddress) none),
          ⟨st.contract, some (), some ()⟩,
          [.getSigner, .getNetwork, .getCode contractAddress]⟩ := by
      simp [connect, connectWith, hw, he, hs, hn, ha, hcode]
    rw [hconn]
    refine ⟨⟨_, rfl⟩, rfl, rfl, ?_, ?_, ?_, ?_⟩
    · intro hc0
      simp [isConnected, hc0]
    · intro env2 n2 hn2
      simp [getNetworkInfo, hn2]
    · intro env2 a ha2
      simp [getWalletAddress, ha2]
    · intro env2 n2 code hn2 hcd2
      simp [getContractDebugInfo, hn2, hcd2]

/-- Witness for C10: a fresh instance whose connect fails at the bytecode
check on the empty-bytecode environment. -/
theorem diagnostics_after_failed_connect_witness :
    (∃ e, (connect initialState emptyCodeEnv).result = .error e) ∧
    (connect initialState emptyCodeEnv).state.provider = some () ∧
    (connect initialState emptyCodeEnv).state.signer = some () ∧
    (initialState.contract = none →
      isConnected (connect initialState emptyCodeEnv).state = false) ∧
    (∀ env2 n2, env2.networkResult = .ok n2 →
      (getNetworkInfo (connect initialState emptyCodeEnv).state env2).result =
        .ok ⟨n2.chainId, n2.name⟩) ∧
    (∀ env2 a, env2.signerAddressResult = .ok a →
      (getWalletAddress (connect initialState emptyCodeEnv).state env2).result =
        .ok a) ∧
    (∀ env2 n2 code, env2.networkResult = .ok n2 →
      env2.codeResult contractAddress = .ok code →
      (getContractDebugInfo (connect initialState emptyCodeEnv).state env2).result =
        .ok ⟨contractAddress, ⟨n2.chainId, n2.name⟩, code, code != "0x"⟩) :=
  diagnostics_after_failed_connect initialState emptyCodeEnv rfl rfl rfl
    ⟨1, "mainnet"⟩ rfl (Or.inr ⟨rfl, rfl⟩)

end CounterApp
